import Mathlib

/-!
# Verification of the session/token lifecycle manager and the git-sync
# content-piece-updated handler

This development shallowly embeds the session management code
(`getSessionId`, `loadSessionData`, `createTokens`, `setSession`,
`createSession`, `refreshSession`, `updateSession`, `updateSessionRole`,
`switchWorkspaceSession`, `deleteSession`) and the git-sync handler
(`handleContentPieceUpdated`) as pure Lean functions over an explicit
store state, and proves properties about them.

Modelling conventions:
- The redis store is modelled as a record of total maps. The string key
  patterns of the source (`session:` prefix + id, `refreshToken:` prefix
  + id, `role:` + id + `:sessions`, `user:` + id + `:sessions`,
  `workspace:` + id + `:sessions`, and the hashes `session:role`,
  `session:user`, `session:workspace`) are represented structurally as
  separate fields keyed by the interpolated identifier; the fixed
  prefixes make the string keys injective, so this is faithful.
- Redis sets are modelled as lists with `sadd` inserting only when
  absent and `srem` removing every occurrence.
- TTLs are recorded as the number of seconds passed to `set`/`expire`
  (the passage of time is not modelled).
- `JSON.stringify`/`JSON.parse` round-trip the `SessionData` record, so
  the store holds the record directly.
- The external transport collaborator (`ctx.res`) is modelled as an
  append-only effect log: `jwtSign`, `setCookie` and `clearCookie`
  entries. `jwtSign` is abstracted as an environment function from the
  session identifier and expiry to the signed token string.
- The durable document store behind `loadSessionData` is an environment
  of lookup outcomes per identifier; a thrown lookup error is
  `Except.error ()`, a missing document is `Except.ok none`.
- All operations are total Lean functions: "raises no error" is
  witnessed by totality; the only failure channels of the source that
  reach these functions (loader lookup failures, credential
  verification failures) are modelled as values.
-/

/-- Capability token carried by a role, an opaque string. -/
abbrev Permission := String

/-- The cached session record (interface `SessionData` of the source). -/
structure SessionData where
  workspaceId : String
  userId : String
  roleId : String
  permissions : List Permission
  baseType : Option String
  subscriptionStatus : Option String
  subscriptionPlan : Option String
deriving DecidableEq

/-- The redis store: one field per key pattern of the source.
`session` and `refreshToken` additionally record the TTL passed to the
`set`/`expire` call. -/
structure RedisStore where
  session : String → Option (SessionData × Nat)
  refreshToken : String → Option (String × Nat)
  roleSessions : String → List String
  userSessions : String → List String
  workspaceSessions : String → List String
  sessionRoleHash : String → Option String
  sessionUserHash : String → Option String
  sessionWorkspaceHash : String → Option String

/-- Pointwise update of a string-keyed map. -/
def updMap {α : Type} (f : String → α) (k : String) (v : α) : String → α :=
  fun x => if x = k then v else f x

/-- Redis `SADD` on the list model: insert the member if absent. -/
def sadd (l : List String) (m : String) : List String :=
  if m ∈ l then l else l ++ [m]

/-- Redis `SREM` on the list model: remove every occurrence. -/
def srem (l : List String) (m : String) : List String :=
  l.filter (fun x => x ≠ m)

/-- Read and parse the primary record `session:` + sessionId
(`redis.get` followed by `JSON.parse`). -/
def getSessionData (r : RedisStore) (sessionId : String) : Option SessionData :=
  (r.session sessionId).map (fun p => p.1)

/-- Cookie attributes passed to `res.setCookie`. -/
structure CookieOpts where
  httpOnly : Bool
  sameSite : Bool
  signed : Bool
  secure : Bool
  domain : String
  path : String
  maxAge : Nat
deriving DecidableEq

/-- One call on the transport collaborator `ctx.res`. -/
inductive ResEffect where
  | jwtSign (sessionId : String) (expiresIn : Nat)
  | setCookie (name : String) (value : String) (opts : CookieOpts)
  | clearCookie (name : String) (path : String) (domain : String)
deriving DecidableEq

/-- Combined mutable state threaded through the lifecycle operations:
the redis store plus the transport effect log. -/
structure St where
  redis : RedisStore
  res : List ResEffect

/-- Fixed environment: the abstract JWT signer (`res.jwtSign`), the
scheme of `config.PUBLIC_API_URL` as reported by `URL.protocol`
(for example the string "https:"), and `config.COOKIE_DOMAIN`. -/
structure Env where
  jwtSign : String → Nat → String
  publicApiProtocol : String
  cookieDomain : String

/-- A parsed, signature-checked credential as seen by `jwt.verify`:
the embedded session identifier, and whether the cookie
parse/unsign/verify chain succeeds (`valid := false` covers a missing
value after unsign, a tampered signature and an expired token, all of
which the source turns into `null` via its catch). -/
structure Credential where
  sessionId : String
  valid : Bool
deriving DecidableEq

/-- The two cookie kinds accepted by `getSessionId`. -/
inductive TokenType where
  | accessToken
  | refreshToken
deriving DecidableEq

/-- Embedding of `getSessionId`: a session identifier cached on the
request socket is returned first, without touching the store; otherwise
the cookie of the requested kind is verified, and for the refresh kind
the store is additionally required to hold `refreshToken:` + sessionId
(`redis.exists`). Every failure path returns `none`. -/
def getSessionId (socketSessionId : Option String) (r : RedisStore)
    (tokenType : TokenType) (cookie : Option Credential) : Option String :=
  match socketSessionId with
  | some sessionId => some sessionId
  | none =>
    match cookie with
    | none => none
    | some cred =>
      if cred.valid then
        match tokenType with
        | TokenType.refreshToken =>
          if (r.refreshToken cred.sessionId).isSome then some cred.sessionId else none
        | TokenType.accessToken => some cred.sessionId
      else none

/-- Account settings document: the field `currentWorkspaceId` read by
the loader. -/
structure UserSettings where
  currentWorkspaceId : String
deriving DecidableEq

/-- Workspace membership document: the field `roleId` read by the
loader. -/
structure WorkspaceMembership where
  roleId : String
deriving DecidableEq

/-- Workspace document: the fields read by the loader (`id` models the
`_id` field rendered as a string). -/
structure Workspace where
  id : String
  subscriptionStatus : Option String
  subscriptionPlan : Option String
deriving DecidableEq

/-- Role document: the fields read by the loader (`id` models `_id`). -/
structure Role where
  id : String
  permissions : List Permission
  baseType : Option String
deriving DecidableEq

/-- Outcomes of the durable-store lookups performed by
`loadSessionData`, per identifier: `Except.error ()` is a thrown
lookup/transport error, `Except.ok none` is a missing document. -/
structure LoadEnv where
  userSettings : String → Except Unit (Option UserSettings)
  workspaceMembership : String → String → Except Unit (Option WorkspaceMembership)
  workspace : String → Except Unit (Option Workspace)
  role : String → Except Unit (Option Role)

/-- Final values of the three mutable locals of `loadSessionData`. -/
structure LoadLookups where
  workspaceMembership : Option WorkspaceMembership
  workspace : Option Workspace
  role : Option Role
deriving DecidableEq

/-- The try/catch body of `loadSessionData`: the lookups run in source
order and a thrown error (including the `notFound` thrown for missing
user settings) aborts the remaining assignments, keeping the values
assigned so far; the catch only logs. -/
def loadLookups (env : LoadEnv) (userId : String) : LoadLookups :=
  match env.userSettings userId with
  | Except.error _ => ⟨none, none, none⟩
  | Except.ok none => ⟨none, none, none⟩
  | Except.ok (some userSettings) =>
    match env.workspaceMembership userId userSettings.currentWorkspaceId with
    | Except.error _ => ⟨none, none, none⟩
    | Except.ok workspaceMembership =>
      match env.workspace userSettings.currentWorkspaceId with
      | Except.error _ => ⟨workspaceMembership, none, none⟩
      | Except.ok workspace =>
        match workspaceMembership with
        | some m =>
          match env.role m.roleId with
          | Except.error _ => ⟨workspaceMembership, workspace, none⟩
          | Except.ok role => ⟨workspaceMembership, workspace, role⟩
        | none => ⟨workspaceMembership, workspace, none⟩

/-- Embedding of `loadSessionData`: always returns a `SessionData`
built from whatever the lookups produced (lookup failures were absorbed
by `loadLookups`). -/
def loadSessionData (env : LoadEnv) (userId : String) : SessionData :=
  let l := loadLookups env userId
  { workspaceId :=
      match l.workspace, l.workspaceMembership with
      | some w, some _ => w.id
      | _, _ => ""
    subscriptionStatus :=
      match l.workspace with
      | some w => w.subscriptionStatus
      | none => none
    subscriptionPlan :=
      match l.workspace with
      | some w => w.subscriptionPlan
      | none => none
    userId := userId
    roleId :=
      match l.role with
      | some r => r.id
      | none => ""
    permissions :=
      match l.role with
      | some r => r.permissions
      | none => []
    baseType :=
      match l.role with
      | some r => r.baseType
      | none => none }

/-- Embedding of `createTokens`: signs an access token (24 h expiry)
and a refresh token (60 d expiry), writes `refreshToken:` + sessionId
with a 60-day TTL, and sets the refresh cookie (path "/session",
maxAge 60 d) and the access cookie (path "/", maxAge 24 h), both
http-only, same-site, signed, and secure exactly when the configured
public endpoint's protocol is "https:". -/
def createTokens (env : Env) (st : St) (sessionId : String) : St :=
  let accessTokenV := env.jwtSign sessionId (60 * 60 * 24)
  let refreshTokenV := env.jwtSign sessionId (60 * 60 * 24 * 60)
  let secure := env.publicApiProtocol = "https:"
  { st with
    redis := { st.redis with
      refreshToken :=
        updMap st.redis.refreshToken sessionId (some (refreshTokenV, 60 * 60 * 24 * 60)) }
    res := st.res ++ [
      ResEffect.jwtSign sessionId (60 * 60 * 24),
      ResEffect.jwtSign sessionId (60 * 60 * 24 * 60),
      ResEffect.setCookie "refreshToken" refreshTokenV
        ⟨true, true, true, secure, env.cookieDomain, "/session", 60 * 60 * 24 * 60⟩,
      ResEffect.setCookie "accessToken" accessTokenV
        ⟨true, true, true, secure, env.cookieDomain, "/", 60 * 60 * 24⟩ ] }

/-- Embedding of `setSession`: write the primary record with a 60-day
TTL, add the identifier to the three reverse sets named by the data's
fields, and write the three forward-hash entries. -/
def setSession (st : St) (sessionId : String) (d : SessionData) : St :=
  { st with
    redis := { st.redis with
      session := updMap st.redis.session sessionId (some (d, 60 * 60 * 24 * 60))
      roleSessions :=
        updMap st.redis.roleSessions d.roleId (sadd (st.redis.roleSessions d.roleId) sessionId)
      userSessions :=
        updMap st.redis.userSessions d.userId (sadd (st.redis.userSessions d.userId) sessionId)
      workspaceSessions :=
        updMap st.redis.workspaceSessions d.workspaceId
          (sadd (st.redis.workspaceSessions d.workspaceId) sessionId)
      sessionRoleHash := updMap st.redis.sessionRoleHash sessionId (some d.roleId)
      sessionUserHash := updMap st.redis.sessionUserHash sessionId (some d.userId)
      sessionWorkspaceHash :=
        updMap st.redis.sessionWorkspaceHash sessionId (some d.workspaceId) } }

/-- Embedding of `createSession`; the fresh `nanoid()` identifier is a
parameter. -/
def createSession (lenv : LoadEnv) (env : Env) (st : St) (sessionId userId : String) : St :=
  let sessionData := loadSessionData lenv userId
  createTokens env (setSession st sessionId sessionData) sessionId

/-- Embedding of `refreshSession`: read the primary record, delete
`refreshToken:` + sessionId unconditionally, and only if the record
exists re-extend its TTL to 60 days and mint fresh tokens. -/
def refreshSession (env : Env) (st : St) (sessionId : String) : St :=
  let sessionCache := getSessionData st.redis sessionId
  let st1 : St :=
    { st with redis := { st.redis with
        refreshToken := updMap st.redis.refreshToken sessionId none } }
  match sessionCache with
  | some d =>
    createTokens env
      { st1 with redis := { st1.redis with
          session := updMap st1.redis.session sessionId (some (d, 60 * 60 * 24 * 60)) } }
      sessionId
  | none => st1

/-- Embedding of `updateSession`: only if the primary record exists,
reload the data from the durable store and rewrite everything via
`setSession`. No index entry is removed. -/
def updateSession (lenv : LoadEnv) (st : St) (sessionId userId : String) : St :=
  match getSessionData st.redis sessionId with
  | some _ => setSession st sessionId (loadSessionData lenv userId)
  | none => st

/-- One iteration of the `for await` loop of `updateSessionRole`:
re-derive the owning account from the `session:user` forward hash and,
when found, update that session. -/
def fanStep (lenv : LoadEnv) (st : St) (sessionId : String) : St :=
  match st.redis.sessionUserHash sessionId with
  | some userId => updateSession lenv st sessionId userId
  | none => st

/-- The `for await` loop of `updateSessionRole` over the member list. -/
def fanLoop (lenv : LoadEnv) (st : St) : List String → St
  | [] => st
  | sessionId :: rest => fanLoop lenv (fanStep lenv st sessionId) rest

/-- Embedding of `updateSessionRole`: read the reverse set
`role:` + roleId + `:sessions` once, then process each member. -/
def updateSessionRole (lenv : LoadEnv) (st : St) (roleId : String) : St :=
  fanLoop lenv st (st.redis.roleSessions roleId)

/-- The detach phase of `switchWorkspaceSession`: if a cached record
exists, remove the identifier from the three reverse sets named by its
fields; unconditionally delete the three forward-hash entries. -/
def switchWorkspaceDetach (st : St) (sessionId : String) : St :=
  let st1 : St :=
    match getSessionData st.redis sessionId with
    | some d =>
      { st with redis := { st.redis with
          roleSessions :=
            updMap st.redis.roleSessions d.roleId (srem (st.redis.roleSessions d.roleId) sessionId)
          userSessions :=
            updMap st.redis.userSessions d.userId (srem (st.redis.userSessions d.userId) sessionId)
          workspaceSessions :=
            updMap st.redis.workspaceSessions d.workspaceId
              (srem (st.redis.workspaceSessions d.workspaceId) sessionId) } }
    | none => st
  { st1 with redis := { st1.redis with
      sessionRoleHash := updMap st1.redis.sessionRoleHash sessionId none
      sessionUserHash := updMap st1.redis.sessionUserHash sessionId none
      sessionWorkspaceHash := updMap st1.redis.sessionWorkspaceHash sessionId none } }

/-- Embedding of `switchWorkspaceSession`: resolve the identifier from
the access credential (no-op when unresolvable), detach, then
`updateSession` with the authenticated account identifier. -/
def switchWorkspaceSession (lenv : LoadEnv) (st : St) (socketSessionId : Option String)
    (cookie : Option Credential) (userId : String) : St :=
  match getSessionId socketSessionId st.redis TokenType.accessToken cookie with
  | none => st
  | some sessionId => updateSession lenv (switchWorkspaceDetach st sessionId) sessionId userId

/-- Embedding of `deleteSession`: if a cached record exists, delete the
primary record and remove the identifier from the three reverse sets
named by its fields; unconditionally delete the three forward-hash
entries and `refreshToken:` + sessionId, and clear both cookies. -/
def deleteSession (env : Env) (st : St) (sessionId : String) : St :=
  let st1 : St :=
    match getSessionData st.redis sessionId with
    | some d =>
      { st with redis := { st.redis with
          session := updMap st.redis.session sessionId none
          roleSessions :=
            updMap st.redis.roleSessions d.roleId (srem (st.redis.roleSessions d.roleId) sessionId)
          userSessions :=
            updMap st.redis.userSessions d.userId (srem (st.redis.userSessions d.userId) sessionId)
          workspaceSessions :=
            updMap st.redis.workspaceSessions d.workspaceId
              (srem (st.redis.workspaceSessions d.workspaceId) sessionId) } }
    | none => st
  { st1 with
    redis := { st1.redis with
      sessionRoleHash := updMap st1.redis.sessionRoleHash sessionId none
      sessionUserHash := updMap st1.redis.sessionUserHash sessionId none
      sessionWorkspaceHash := updMap st1.redis.sessionWorkspaceHash sessionId none
      refreshToken := updMap st1.redis.refreshToken sessionId none }
    res := st1.res ++ [
      ResEffect.clearCookie "refreshToken" "/session" env.cookieDomain,
      ResEffect.clearCookie "accessToken" "/" env.cookieDomain] }

/-- Content piece fields read by the handler (`id` models `_id` as a
string; `filename` may be absent or empty, both falsy). -/
structure ContentPiece where
  id : String
  contentGroupId : String
  filename : Option String
deriving DecidableEq

/-- One entry of the `records` list threaded through the git-sync
handlers. -/
structure GitRecord where
  contentPieceId : String
  path : String
  currentHash : String
  syncedHash : String
deriving DecidableEq

/-- One entry of the `directories` list threaded through the git-sync
handlers. -/
structure GitDirectory where
  contentGroupId : String
  path : String
deriving DecidableEq

/-- External collaborators of the handler: the output content processor
and the md5 digest, both abstracted as functions on the content
buffer. -/
structure GitEnv where
  process : String → ContentPiece → String
  md5 : String → String

/-- The input destructured by the handler: the git data lists, the
updated content piece, and the content lookup result (`none` both for a
missing document and a document with empty content, the falsy cases). -/
structure HandlerInput where
  directories : List GitDirectory
  records : List GitRecord
  contentPiece : ContentPiece
  content : Option String
deriving DecidableEq

/-- The object returned by the handler. -/
structure HandlerOutput where
  directories : List GitDirectory
  records : List GitRecord
deriving DecidableEq

/-- The filename fallback `data.contentPiece.filename ||` id string:
an absent or empty filename falls back to the id. -/
def contentPieceFileName (p : ContentPiece) : String :=
  match p.filename with
  | some f => if f = "" then p.id else f
  | none => p.id

/-- The new record path: directory path split on "/", the filename
appended, empty segments dropped, re-joined with "/". -/
def newRecordPathOf (dirPath : String) (p : ContentPiece) : String :=
  String.intercalate "/"
    (((dirPath.splitOn "/") ++ [contentPieceFileName p]).filter (fun s => s ≠ ""))

/-- Embedding of `handleContentPieceUpdated`. `records.find` with the
reference-equality test `record === existingRecord` is modelled by the
index of the first matching record. -/
def handleContentPieceUpdated (env : GitEnv) (inp : HandlerInput) : HandlerOutput :=
  let newRecords := inp.records
  let pid := inp.contentPiece.id
  let existingRecordIdx :=
    inp.records.findIdx? (fun r => r.contentPieceId = pid ∧ r.currentHash ≠ "")
  let existingDirectory :=
    inp.directories.find? (fun dir => dir.contentGroupId = inp.contentPiece.contentGroupId)
  match existingDirectory with
  | none =>
    match existingRecordIdx with
    | some _ =>
      { directories := inp.directories
        records := newRecords.map (fun r =>
          if r.contentPieceId = pid then { r with currentHash := "" } else r) }
    | none => { directories := inp.directories, records := inp.records }
  | some dir =>
    match inp.content with
    | none => { directories := inp.directories, records := newRecords }
    | some content =>
      let output := env.process content inp.contentPiece
      let contentHash := env.md5 output
      let newRecordPath := newRecordPathOf dir.path inp.contentPiece
      match existingRecordIdx with
      | some i =>
        { directories := inp.directories
          records := (inp.records.enum.map (fun x =>
            if x.1 = i then
              if x.2.path ≠ newRecordPath then
                [{ x.2 with currentHash := "" },
                 { x.2 with path := newRecordPath, currentHash := contentHash, syncedHash := "" }]
              else
                [{ x.2 with currentHash := contentHash }]
            else [x.2])).flatten }
      | none =>
        { directories := inp.directories
          records := newRecords ++
            [{ path := newRecordPath, contentPieceId := pid,
               currentHash := contentHash, syncedHash := "" }] }

/-- Invariant I1 of the specification, exactly as stated: for a live
session, the three forward hashes equal the fields of the current
record and the identifier is a member of exactly the three reverse sets
named by those fields (and of no stale set). Vacuous for a dead
session. -/
def I1 (r : RedisStore) (sessionId : String) : Prop :=
  ∀ d, getSessionData r sessionId = some d →
    r.sessionRoleHash sessionId = some d.roleId ∧
    r.sessionUserHash sessionId = some d.userId ∧
    r.sessionWorkspaceHash sessionId = some d.workspaceId ∧
    (∀ k, sessionId ∈ r.roleSessions k ↔ k = d.roleId) ∧
    (∀ k, sessionId ∈ r.userSessions k ↔ k = d.userId) ∧
    (∀ k, sessionId ∈ r.workspaceSessions k ↔ k = d.workspaceId)

/-- The attach half of invariant I1: for a live session, the forward
hashes equal the fields of the current record and the identifier is a
member of the three reverse sets named by those fields (stale
memberships are not excluded). -/
def I1attach (r : RedisStore) (sessionId : String) : Prop :=
  ∀ d, getSessionData r sessionId = some d →
    r.sessionRoleHash sessionId = some d.roleId ∧
    r.sessionUserHash sessionId = some d.userId ∧
    r.sessionWorkspaceHash sessionId = some d.workspaceId ∧
    sessionId ∈ r.roleSessions d.roleId ∧
    sessionId ∈ r.userSessions d.userId ∧
    sessionId ∈ r.workspaceSessions d.workspaceId

/-- One lifecycle operation of a single-session sequence. Each
operation carries the durable-store environment in force when it runs
(the durable store may change between operations); `switchWs` carries
whether the access credential resolves to this session. -/
inductive Op where
  | create (lenv : LoadEnv) (userId : String)
  | update (lenv : LoadEnv) (userId : String)
  | switchWs (lenv : LoadEnv) (resolved : Bool) (userId : String)
  | delete

/-- Run one operation of a single-session sequence against the fixed
session identifier. -/
def runOp (env : Env) (sessionId : String) (st : St) : Op → St
  | Op.create lenv userId => createSession lenv env st sessionId userId
  | Op.update lenv userId => updateSession lenv st sessionId userId
  | Op.switchWs lenv resolved userId =>
    switchWorkspaceSession lenv st (if resolved then some sessionId else none) none userId
  | Op.delete => deleteSession env st sessionId

/-- Run a sequence of operations on a single session identifier. -/
def runOps (env : Env) (sessionId : String) (ops : List Op) (st : St) : St :=
  ops.foldl (fun st op => runOp env sessionId st op) st

/-- The empty redis store. -/
def emptyRedis : RedisStore :=
  ⟨fun _ => none, fun _ => none, fun _ => [], fun _ => [], fun _ => [],
   fun _ => none, fun _ => none, fun _ => none⟩

/-- The empty combined state. -/
def emptySt : St := ⟨emptyRedis, []⟩

/-- A concrete token/config environment for the scenarios. -/
def env0 : Env := ⟨fun s n => s ++ "." ++ toString n, "https:", "example.com"⟩

/-- Durable-store contents in which account lookups resolve to
workspace "w1" with role "r1" and permissions ["read"]. -/
def lenvA : LoadEnv :=
  ⟨fun _ => Except.ok (some ⟨"w1"⟩),
   fun _ _ => Except.ok (some ⟨"r1"⟩),
   fun w => Except.ok (some ⟨w, none, none⟩),
   fun r => Except.ok (some ⟨r, ["read"], none⟩)⟩

/-- Durable-store contents in which account lookups resolve to
workspace "w2" with role "r2" and permissions ["write"]. -/
def lenvB : LoadEnv :=
  ⟨fun _ => Except.ok (some ⟨"w2"⟩),
   fun _ _ => Except.ok (some ⟨"r2"⟩),
   fun w => Except.ok (some ⟨w, none, none⟩),
   fun r => Except.ok (some ⟨r, ["write"], none⟩)⟩

/-- Durable-store contents with no user settings document: every load
degrades to the empty-field record. -/
def lenvC : LoadEnv :=
  ⟨fun _ => Except.ok none,
   fun _ _ => Except.ok none,
   fun _ => Except.ok none,
   fun _ => Except.ok none⟩

/-- State after creating session "s" for account "u" under `lenvA` and
then updating it under `lenvB`: the update reloads different data. -/
def stAB : St :=
  runOps env0 "s" [Op.create lenvA "u", Op.update lenvB "u"] emptySt

lemma updMap_self {α : Type} (f : String → α) (k : String) (v : α) : updMap f k v k = v := by
  simp [updMap]

lemma updMap_ne {α : Type} (f : String → α) (k x : String) (v : α) (h : x ≠ k) :
    updMap f k v x = f x := by
  simp [updMap, h]

lemma mem_sadd_self (l : List String) (m : String) : m ∈ sadd l m := by
  by_cases h : m ∈ l <;> simp [sadd, h]

lemma mem_sadd_of_mem (l : List String) (m a : String) (h : a ∈ l) : a ∈ sadd l m := by
  by_cases hm : m ∈ l <;> simp [sadd, hm, h]

lemma not_mem_srem_self (l : List String) (m : String) : m ∉ srem l m := by
  simp [srem]

lemma getSessionData_setSession_self (st : St) (sid : String) (d : SessionData) :
    getSessionData (setSession st sid d).redis sid = some d := by
  simp [setSession, getSessionData, updMap]

lemma I1attach_setSession (st : St) (sid : String) (d : SessionData) :
    I1attach (setSession st sid d).redis sid := by
  intro d' hd'
  rw [getSessionData_setSession_self] at hd'
  injection hd' with hd'
  subst hd'
  refine ⟨?_, ?_, ?_, ?_, ?_, ?_⟩ <;> simp [setSession, updMap, mem_sadd_self]

lemma I1attach_createTokens (env : Env) (st : St) (sid s : String)
    (h : I1attach st.redis s) : I1attach (createTokens env st sid).redis s :=
  h

lemma I1attach_of_none {r : RedisStore} {sid : String}
    (h : getSessionData r sid = none) : I1attach r sid := by
  intro d hd
  rw [h] at hd
  exact Option.noConfusion hd

lemma I1attach_createSession (lenv : LoadEnv) (env : Env) (st : St) (sid uid : String) :
    I1attach (createSession lenv env st sid uid).redis sid :=
  I1attach_createTokens env _ sid sid (I1attach_setSession st sid (loadSessionData lenv uid))

lemma I1attach_updateSession (lenv : LoadEnv) (st : St) (sid uid : String)
    (h : I1attach st.redis sid) : I1attach (updateSession lenv st sid uid).redis sid := by
  cases hc : getSessionData st.redis sid with
  | none => simpa [updateSession, hc] using h
  | some d =>
    simpa [updateSession, hc] using I1attach_setSession st sid (loadSessionData lenv uid)

lemma getSessionData_deleteSession (env : Env) (st : St) (sid : String) :
    getSessionData (deleteSession env st sid).redis sid = none := by
  cases hs : st.redis.session sid with
  | none => simp [deleteSession, getSessionData, hs, updMap]
  | some p => simp [deleteSession, getSessionData, hs, updMap]

lemma switchWorkspaceDetach_session (st : St) (sid : String) :
    (switchWorkspaceDetach st sid).redis.session = st.redis.session := by
  cases hc : getSessionData st.redis sid <;> simp [switchWorkspaceDetach, hc]

lemma I1attach_runOp (env : Env) (sid : String) (st : St) (op : Op)
    (h : I1attach st.redis sid) : I1attach (runOp env sid st op).redis sid := by
  cases op with
  | create lenv uid => exact I1attach_createSession lenv env st sid uid
  | update lenv uid => exact I1attach_updateSession lenv st sid uid h
  | delete => exact I1attach_of_none (getSessionData_deleteSession env st sid)
  | switchWs lenv resolved uid =>
    cases resolved with
    | false => simpa [runOp, switchWorkspaceSession, getSessionId] using h
    | true =>
      show I1attach (switchWorkspaceSession lenv st (some sid) none uid).redis sid
      have hres : getSessionId (some sid) st.redis TokenType.accessToken none = some sid := rfl
      cases hc : getSessionData (switchWorkspaceDetach st sid).redis sid with
      | none =>
        have := I1attach_of_none hc
        simpa [switchWorkspaceSession, hres, updateSession, hc] using this
      | some d =>
        have := I1attach_setSession (switchWorkspaceDetach st sid) sid (loadSessionData lenv uid)
        simpa [switchWorkspaceSession, hres, updateSession, hc] using this

lemma I1attach_runOps (env : Env) (sid : String) (ops : List Op) :
    ∀ st : St, I1attach st.redis sid → I1attach (runOps env sid ops st).redis sid := by
  induction ops with
  | nil => intro st h; exact h
  | cons op rest ih =>
    intro st h
    exact ih (runOp env sid st op) (I1attach_runOp env sid st op h)

lemma mem_updateSession_roleSessions (lenv : LoadEnv) (st : St) (sid uid k a : String)
    (h : a ∈ st.redis.roleSessions k) :
    a ∈ (updateSession lenv st sid uid).redis.roleSessions k := by
  cases hc : getSessionData st.redis sid with
  | none => simpa [updateSession, hc] using h
  | some d =>
    by_cases hk : k = (loadSessionData lenv uid).roleId
    · simpa [updateSession, hc, setSession, updMap, hk] using mem_sadd_of_mem _ sid a h
    · simpa [updateSession, hc, setSession, updMap, hk] using h

lemma mem_updateSession_userSessions (lenv : LoadEnv) (st : St) (sid uid k a : String)
    (h : a ∈ st.redis.userSessions k) :
    a ∈ (updateSession lenv st sid uid).redis.userSessions k := by
  cases hc : getSessionData st.redis sid with
  | none => simpa [updateSession, hc] using h
  | some d =>
    by_cases hk : k = (loadSessionData lenv uid).userId
    · simpa [updateSession, hc, setSession, updMap, hk] using mem_sadd_of_mem _ sid a h
    · simpa [updateSession, hc, setSession, updMap, hk] using h

lemma mem_updateSession_workspaceSessions (lenv : LoadEnv) (st : St) (sid uid k a : String)
    (h : a ∈ st.redis.workspaceSessions k) :
    a ∈ (updateSession lenv st sid uid).redis.workspaceSessions k := by
  cases hc : getSessionData st.redis sid with
  | none => simpa [updateSession, hc] using h
  | some d =>
    by_cases hk : k = (loadSessionData lenv uid).workspaceId
    · simpa [updateSession, hc, setSession, updMap, hk] using mem_sadd_of_mem _ sid a h
    · simpa [updateSession, hc, setSession, updMap, hk] using h

/-- State after creating session "s" for account "u" under `lenvA`. -/
def stA : St := runOps env0 "s" [Op.create lenvA "u"] emptySt

/-- A dead-session state: no primary record for "s" but a leftover
refresh token entry for it (invariant I3 of the specification allows
this shape). -/
def stT : St :=
  ⟨{ emptyRedis with refreshToken := updMap emptyRedis.refreshToken "s" (some ("tok", 99)) }, []⟩

/-- C1 counterexample: after `create` under `lenvA` (role "r1") and
then `update` under `lenvB` (role "r2") on session "s", invariant I1
fails — `update` attached the new index entries without detaching the
old ones, so "s" is still a member of the stale reverse set of role
"r1" while the current record names role "r2". -/
theorem update_breaks_exact_I1 : ¬ I1 stAB.redis "s" := by
  intro h
  have hd : getSessionData stAB.redis "s" =
      some ⟨"w2", "u", "r2", ["write"], none, none, none⟩ := by decide
  obtain ⟨-, -, -, hrole, -, -⟩ := h _ hd
  have hmem : "s" ∈ stAB.redis.roleSessions "r1" := by decide
  exact absurd ((hrole "r1").mp hmem) (by decide)

/-- C1 (amended): for every sequence of create/update/switchWorkspace/
delete operations on a single session identifier, starting from any
state satisfying the attach half of I1, after each operation the attach
half of I1 holds: the forward hashes map the identifier to the roleId,
userId and workspaceId of the current SessionData and the identifier is
a member of the three reverse sets named by those values. However,
`update` realizes reindex as attach of the new index entries only — it
never removes a pre-existing reverse-set membership — so the identifier
may additionally remain in stale sets and the exactness half of I1 can
fail after `update`. -/
theorem session_ops_attach_invariant :
    (∀ (env : Env) (sid : String) (st : St) (ops : List Op),
      I1attach st.redis sid → I1attach (runOps env sid ops st).redis sid) ∧
    (∀ (lenv : LoadEnv) (st : St) (sid uid k a : String),
      (a ∈ st.redis.roleSessions k →
        a ∈ (updateSession lenv st sid uid).redis.roleSessions k) ∧
      (a ∈ st.redis.userSessions k →
        a ∈ (updateSession lenv st sid uid).redis.userSessions k) ∧
      (a ∈ st.redis.workspaceSessions k →
        a ∈ (updateSession lenv st sid uid).redis.workspaceSessions k)) := by
  constructor
  · intro env sid st ops h
    exact I1attach_runOps env sid ops st h
  · intro lenv st sid uid k a
    exact ⟨mem_updateSession_roleSessions lenv st sid uid k a,
           mem_updateSession_userSessions lenv st sid uid k a,
           mem_updateSession_workspaceSessions lenv st sid uid k a⟩

/-- Witness for `session_ops_attach_invariant`: the attach half of I1
holds concretely after create-then-update on "s" starting from the
empty store, and the stale membership in role "r1" indeed survives the
update. -/
theorem session_ops_attach_invariant_w :
    I1attach stAB.redis "s" ∧
    "s" ∈ (updateSession lenvB stAB "s" "u").redis.roleSessions "r1" :=
  ⟨session_ops_attach_invariant.1 env0 "s" emptySt [Op.create lenvA "u", Op.update lenvB "u"]
      (fun _ hd => nomatch hd),
   (session_ops_attach_invariant.2 lenvB stAB "s" "u" "r1" "s").1 (by decide)⟩

/-- C3 counterexample: for the dead session "s" of `stT` (primary
record absent, refresh token entry present), `refresh` deletes the
`refreshToken:` entry — a store mutation, where the claim requires
every cache key to be left exactly as it was. -/
theorem refresh_on_absent_mutates_store :
    stT.redis.session "s" = none ∧
    stT.redis.refreshToken "s" = some ("tok", 99) ∧
    (refreshSession env0 stT "s").redis.refreshToken "s" = none :=
  ⟨rfl, by decide, by decide⟩

/-- C3 (amended): on a session identifier whose primary record is
absent, `update` is a complete no-op and raises no error, while
`refresh` raises no error and performs exactly one store mutation: it
unconditionally deletes `refreshToken:` + sessionId, leaving every
other cache key, set and hash unchanged. -/
theorem absent_session_refresh_update_effects :
    ∀ (lenv : LoadEnv) (env : Env) (st : St) (sid uid : String),
      getSessionData st.redis sid = none →
      updateSession lenv st sid uid = st ∧
      refreshSession env st sid =
        { st with redis :=
            { st.redis with refreshToken := updMap st.redis.refreshToken sid none } } := by
  intro lenv env st sid uid h
  constructor
  · simp [updateSession, h]
  · simp [refreshSession, h]

/-- Witness for `absent_session_refresh_update_effects` at the concrete
dead-session state `stT`. -/
theorem absent_session_refresh_update_effects_w :
    updateSession lenvA stT "s" "u" = stT ∧
    refreshSession env0 stT "s" =
      { stT with redis :=
          { stT.redis with refreshToken := updMap stT.redis.refreshToken "s" none } } :=
  absent_session_refresh_update_effects lenvA env0 stT "s" "u" rfl

/-- C4 counterexample: a session identifier cached on the request
socket is returned by `getSessionId` for the refresh kind even though
`refreshToken:` + sessionId is absent from the store — the revocation
check is bypassed by the in-process socket cache. -/
theorem socket_cache_bypasses_revocation :
    getSessionId (some "s") emptyRedis TokenType.refreshToken none = some "s" ∧
    emptyRedis.refreshToken "s" = none :=
  ⟨rfl, rfl⟩

/-- C4 (amended): when the request socket carries no cached session
identifier, `getSessionId` for the refresh kind returns a non-absent
identifier only if `refreshToken:` + sessionId exists in the store at
the time of the call, and an expired, tampered or missing credential
resolves to absent without throwing (the function is total); a
socket-cached identifier, however, is returned without any store
check. -/
theorem resolve_refresh_without_socket_cache :
    (∀ (r : RedisStore) (sid : String) (cred : Credential),
      getSessionId none r TokenType.refreshToken (some cred) = some sid →
      cred.valid = true ∧ sid = cred.sessionId ∧ (r.refreshToken sid).isSome = true) ∧
    (∀ (r : RedisStore) (cred : Credential), cred.valid = false →
      getSessionId none r TokenType.refreshToken (some cred) = none) ∧
    (∀ r : RedisStore, getSessionId none r TokenType.refreshToken none = none) := by
  refine ⟨?_, ?_, fun r => rfl⟩
  · intro r sid cred h
    by_cases hv : cred.valid = true
    · by_cases hs : (r.refreshToken cred.sessionId).isSome = true
      · simp only [getSessionId, hv, if_true, hs, Option.some.injEq] at h
        subst h
        exact ⟨hv, rfl, hs⟩
      · simp [getSessionId, hv, hs] at h
    · simp [getSessionId, hv] at h
  · intro r cred h
    simp [getSessionId, h]

/-- Witness for `resolve_refresh_without_socket_cache`: at `stT` a
valid refresh credential for "s" resolves and the backing entry indeed
exists; an invalid credential resolves to absent. -/
theorem resolve_refresh_without_socket_cache_w :
    (stT.redis.refreshToken "s").isSome = true ∧
    getSessionId none stT.redis TokenType.refreshToken (some ⟨"s", false⟩) = none :=
  ⟨(resolve_refresh_without_socket_cache.1 stT.redis "s" ⟨"s", true⟩ (by decide)).2.2,
   resolve_refresh_without_socket_cache.2.1 stT.redis ⟨"s", false⟩ rfl⟩

lemma getSessionData_refresh_present (env : Env) (st : St) (sid : String) (d : SessionData)
    (h : getSessionData st.redis sid = some d) :
    getSessionData (refreshSession env st sid).redis sid = some d := by
  simp only [refreshSession, h]
  simp [createTokens, getSessionData, updMap]

lemma refreshToken_isSome_after_refresh_present (env : Env) (st : St) (sid : String)
    (d : SessionData) (h : getSessionData st.redis sid = some d) :
    ((refreshSession env st sid).redis.refreshToken sid).isSome = true := by
  simp [refreshSession, h, createTokens, updMap]

/-- C2 counterexample: create session "s1", refresh twice; then the
refresh credential issued by the first refresh (a still-valid signed
token embedding "s1") resolves to "s1", not to absent — the revocation
check only tests that the key `refreshToken:s1` exists, and the second
refresh re-created it. -/
theorem first_refresh_credential_not_one_time :
    getSessionId none
      (refreshSession env0 (refreshSession env0 (createSession lenvA env0 emptySt "s1" "u") "s1") "s1").redis
      TokenType.refreshToken (some ⟨"s1", true⟩) = some "s1" := by decide

/-- C2 (amended): after a session is created and refreshed twice in
sequence, the refresh credential issued by the first refresh still
resolves (to the session identifier): the revocation check of
`getSessionId` tests only the existence of `refreshToken:` + sessionId,
not that the presented credential equals the stored value, and the
second refresh re-created that key. The first credential fails closed
only while the key is absent (between its deletion and the re-issue, or
after the session is deleted). -/
theorem refresh_replay_resolves_after_second_refresh :
    ∀ (lenv : LoadEnv) (env : Env) (st : St) (sid uid : String),
      getSessionId none
        (refreshSession env (refreshSession env (createSession lenv env st sid uid) sid) sid).redis
        TokenType.refreshToken (some ⟨sid, true⟩) = some sid := by
  intro lenv env st sid uid
  have h1 : getSessionData (createSession lenv env st sid uid).redis sid
      = some (loadSessionData lenv uid) :=
    getSessionData_setSession_self st sid (loadSessionData lenv uid)
  have h2 := getSessionData_refresh_present env _ sid _ h1
  have h3 := refreshToken_isSome_after_refresh_present env _ sid _ h2
  simp [getSessionId, h3]

/-- C5 counterexample: in `stAB` the identifier "s" is (stale) member
of the reverse set of role "r1"; `delete` removes only the memberships
named by the current record (role "r2"), so after `delete` the
identifier is still a member of a reverse set it was previously in. -/
theorem delete_leaves_stale_membership :
    "s" ∈ stAB.redis.roleSessions "r1" ∧
    "s" ∈ (deleteSession env0 stAB "s").redis.roleSessions "r1" :=
  ⟨by decide, by decide⟩

/-- C5 (amended): after `delete(id)` the primary record and
`refreshToken:` + id are absent, the three forward-hash entries for id
are gone, and id is not a member of the three reverse sets named by the
record cached at deletion time (stale memberships under other keys may
remain); `delete` on an already-absent session leaves the primary
record and all reverse sets untouched, clears the forward-hash and
refresh-token residue, and clears both cookies; the operation is total
and never errors. -/
theorem deleteSession_spec :
    ∀ (env : Env) (st : St) (sid : String),
      getSessionData (deleteSession env st sid).redis sid = none ∧
      (deleteSession env st sid).redis.refreshToken sid = none ∧
      (deleteSession env st sid).redis.sessionRoleHash sid = none ∧
      (deleteSession env st sid).redis.sessionUserHash sid = none ∧
      (deleteSession env st sid).redis.sessionWorkspaceHash sid = none ∧
      (∀ d, getSessionData st.redis sid = some d →
        sid ∉ (deleteSession env st sid).redis.roleSessions d.roleId ∧
        sid ∉ (deleteSession env st sid).redis.userSessions d.userId ∧
        sid ∉ (deleteSession env st sid).redis.workspaceSessions d.workspaceId) ∧
      (getSessionData st.redis sid = none →
        (deleteSession env st sid).redis.session = st.redis.session ∧
        (deleteSession env st sid).redis.roleSessions = st.redis.roleSessions ∧
        (deleteSession env st sid).redis.userSessions = st.redis.userSessions ∧
        (deleteSession env st sid).redis.workspaceSessions = st.redis.workspaceSessions) ∧
      (deleteSession env st sid).res = st.res ++
        [ResEffect.clearCookie "refreshToken" "/session" env.cookieDomain,
         ResEffect.clearCookie "accessToken" "/" env.cookieDomain] := by
  intro env st sid
  cases hc : getSessionData st.redis sid with
  | none =>
    refine ⟨getSessionData_deleteSession env st sid, ?_, ?_, ?_, ?_, ?_, ?_, ?_⟩
    · simp [deleteSession, hc, updMap]
    · simp [deleteSession, hc, updMap]
    · simp [deleteSession, hc, updMap]
    · simp [deleteSession, hc, updMap]
    · intro d hd
      exact Option.noConfusion hd
    · intro _
      refine ⟨?_, ?_, ?_, ?_⟩ <;> simp [deleteSession, hc]
    · simp [deleteSession, hc]
  | some d =>
    refine ⟨getSessionData_deleteSession env st sid, ?_, ?_, ?_, ?_, ?_, ?_, ?_⟩
    · simp [deleteSession, hc, updMap]
    · simp [deleteSession, hc, updMap]
    · simp [deleteSession, hc, updMap]
    · simp [deleteSession, hc, updMap]
    · intro d' hd'
      injection hd' with hd'
      subst hd'
      refine ⟨?_, ?_, ?_⟩ <;>
        simp [deleteSession, hc, updMap, not_mem_srem_self]
    · intro hn
      exact Option.noConfusion hn
    · simp [deleteSession, hc]

/-- Witness for `deleteSession_spec` at the concrete state `stA`: after
delete, the record of "s" is gone and "s" is no longer in the reverse
set of role "r1" named by the record that was current at deletion
time. -/
theorem deleteSession_spec_w :
    getSessionData (deleteSession env0 stA "s").redis "s" = none ∧
    "s" ∉ (deleteSession env0 stA "s").redis.roleSessions "r1" :=
  ⟨(deleteSession_spec env0 stA "s").1,
   ((deleteSession_spec env0 stA "s").2.2.2.2.2.1
      ⟨"w1", "u", "r1", ["read"], none, none, none⟩ (by decide)).1⟩

/-- C6: `loadSessionData` returns, for every outcome of the underlying
lookups (the function is total, so lookup failures — modelled as
`Except.error` outcomes absorbed by `loadLookups` — never propagate), a
record whose workspaceId is the workspace's identifier exactly when
both the workspace and the membership resolved and the empty string
otherwise, whose roleId is the empty string and permissions the empty
list when no role was found, and whose userId is the queried account
identifier. -/
theorem loadSessionData_shape :
    ∀ (lenv : LoadEnv) (uid : String),
      (∀ w m, (loadLookups lenv uid).workspace = some w →
        (loadLookups lenv uid).workspaceMembership = some m →
        (loadSessionData lenv uid).workspaceId = w.id) ∧
      (((loadLookups lenv uid).workspace = none ∨
        (loadLookups lenv uid).workspaceMembership = none) →
        (loadSessionData lenv uid).workspaceId = "") ∧
      ((loadLookups lenv uid).role = none →
        (loadSessionData lenv uid).roleId = "" ∧
        (loadSessionData lenv uid).permissions = []) ∧
      (loadSessionData lenv uid).userId = uid := by
  intro lenv uid
  refine ⟨?_, ?_, ?_, rfl⟩
  · intro w m hw hm
    simp [loadSessionData, hw, hm]
  · intro h
    rcases h with h | h
    · simp [loadSessionData, h]
    · cases hw : (loadLookups lenv uid).workspace <;> simp [loadSessionData, hw, h]
  · intro h
    constructor <;> simp [loadSessionData, h]

/-- Witness for `loadSessionData_shape`: under `lenvA` every lookup
resolves and the workspaceId is "w1"; under `lenvC` (no user settings
document) the load degrades to empty workspaceId, empty roleId and
empty permissions. -/
theorem loadSessionData_shape_w :
    (loadSessionData lenvA "u").workspaceId = "w1" ∧
    (loadSessionData lenvC "u").workspaceId = "" ∧
    (loadSessionData lenvC "u").roleId = "" ∧
    (loadSessionData lenvC "u").permissions = [] :=
  ⟨(loadSessionData_shape lenvA "u").1 ⟨"w1", none, none⟩ ⟨"r1"⟩ rfl rfl,
   (loadSessionData_shape lenvC "u").2.1 (Or.inl rfl),
   ((loadSessionData_shape lenvC "u").2.2.1 rfl).1,
   ((loadSessionData_shape lenvC "u").2.2.1 rfl).2⟩

lemma getSessionData_switchWorkspaceDetach (st : St) (sid k : String) :
    getSessionData (switchWorkspaceDetach st sid).redis k = getSessionData st.redis k := by
  unfold getSessionData
  rw [switchWorkspaceDetach_session]

/-- C7: for an authenticated account whose session currently records
workspace `d.workspaceId` and whose durable-store settings now make the
loader produce workspace `w2` (with `w2` different from the old one),
`switchWorkspaceSession` first (detach phase, cached record present)
removes the identifier from the three reverse sets named by the cached
record and clears the three forward hashes unconditionally, and then
(after the reload inside `update`) has removed the identifier from the
old workspace reverse set, added it to the new one, and rewritten the
primary record to the freshly loaded data whose workspaceId is `w2`. -/
theorem switchWorkspace_moves_session :
    ∀ (lenv : LoadEnv) (st : St) (sid uid : String) (d : SessionData) (w2 : String),
      getSessionData st.redis sid = some d →
      (loadSessionData lenv uid).workspaceId = w2 →
      d.workspaceId ≠ w2 →
      (sid ∉ (switchWorkspaceDetach st sid).redis.roleSessions d.roleId ∧
       sid ∉ (switchWorkspaceDetach st sid).redis.userSessions d.userId ∧
       sid ∉ (switchWorkspaceDetach st sid).redis.workspaceSessions d.workspaceId) ∧
      ((switchWorkspaceDetach st sid).redis.sessionRoleHash sid = none ∧
       (switchWorkspaceDetach st sid).redis.sessionUserHash sid = none ∧
       (switchWorkspaceDetach st sid).redis.sessionWorkspaceHash sid = none) ∧
      sid ∉ (switchWorkspaceSession lenv st (some sid) none uid).redis.workspaceSessions
        d.workspaceId ∧
      sid ∈ (switchWorkspaceSession lenv st (some sid) none uid).redis.workspaceSessions w2 ∧
      getSessionData (switchWorkspaceSession lenv st (some sid) none uid).redis sid =
        some (loadSessionData lenv uid) := by
  intro lenv st sid uid d w2 hd hw2 hne
  subst hw2
  have hdet : getSessionData (switchWorkspaceDetach st sid).redis sid = some d := by
    rw [getSessionData_switchWorkspaceDetach]
    exact hd
  have hsw : switchWorkspaceSession lenv st (some sid) none uid
      = setSession (switchWorkspaceDetach st sid) sid (loadSessionData lenv uid) := by
    simp only [switchWorkspaceSession, getSessionId, updateSession, hdet]
  refine ⟨⟨?_, ?_, ?_⟩, ⟨?_, ?_, ?_⟩, ?_, ?_, ?_⟩
  · simp [switchWorkspaceDetach, hd, updMap, not_mem_srem_self]
  · simp [switchWorkspaceDetach, hd, updMap, not_mem_srem_self]
  · simp [switchWorkspaceDetach, hd, updMap, not_mem_srem_self]
  · simp [switchWorkspaceDetach, hd, updMap]
  · simp [switchWorkspaceDetach, hd, updMap]
  · simp [switchWorkspaceDetach, hd, updMap]
  · rw [hsw]
    simp [setSession, updMap, hne, switchWorkspaceDetach, hd, not_mem_srem_self]
  · rw [hsw]
    simp [setSession, updMap, mem_sadd_self]
  · rw [hsw]
    exact getSessionData_setSession_self (switchWorkspaceDetach st sid) sid
      (loadSessionData lenv uid)

/-- Witness for `switchWorkspace_moves_session`: concretely, switching
session "s" (created in workspace "w1" under `lenvA`) while the durable
store now selects "w2" under `lenvB` removes it from the "w1" reverse
set, adds it to the "w2" reverse set, and rewrites the record. -/
theorem switchWorkspace_moves_session_w :
    "s" ∉ (switchWorkspaceSession lenvB stA (some "s") none "u").redis.workspaceSessions "w1" ∧
    "s" ∈ (switchWorkspaceSession lenvB stA (some "s") none "u").redis.workspaceSessions "w2" ∧
    getSessionData (switchWorkspaceSession lenvB stA (some "s") none "u").redis "s" =
      some (loadSessionData lenvB "u") := by
  have h := switchWorkspace_moves_session lenvB stA "s" "u"
    ⟨"w1", "u", "r1", ["read"], none, none, none⟩ "w2" (by decide) (by decide) (by decide)
  exact ⟨h.2.2.1, h.2.2.2.1, h.2.2.2.2⟩

lemma fanStep_session_ne (lenv : LoadEnv) (st : St) (m k : String) (h : k ≠ m) :
    (fanStep lenv st m).redis.session k = st.redis.session k := by
  cases hh : st.redis.sessionUserHash m with
  | none => simp [fanStep, hh]
  | some u =>
    cases hc : getSessionData st.redis m with
    | none => simp [fanStep, hh, updateSession, hc]
    | some d => simp [fanStep, hh, updateSession, hc, setSession, updMap, h]

lemma fanStep_userHash_ne (lenv : LoadEnv) (st : St) (m k : String) (h : k ≠ m) :
    (fanStep lenv st m).redis.sessionUserHash k = st.redis.sessionUserHash k := by
  cases hh : st.redis.sessionUserHash m with
  | none => simp [fanStep, hh]
  | some u =>
    cases hc : getSessionData st.redis m with
    | none => simp [fanStep, hh, updateSession, hc]
    | some d => simp [fanStep, hh, updateSession, hc, setSession, updMap, h]

lemma fanLoop_session_ne (lenv : LoadEnv) (l : List String) :
    ∀ (st : St) (k : String), k ∉ l →
      (fanLoop lenv st l).redis.session k = st.redis.session k := by
  induction l with
  | nil => intro st k _; rfl
  | cons a rest ih =>
    intro st k h
    have hka : k ≠ a := by
      rintro rfl
      exact h (List.mem_cons_self _ _)
    have hkr : k ∉ rest := fun hm => h (List.mem_cons_of_mem a hm)
    calc (fanLoop lenv (fanStep lenv st a) rest).redis.session k
        = (fanStep lenv st a).redis.session k := ih _ k hkr
      _ = st.redis.session k := fanStep_session_ne lenv st a k hka

lemma fanLoop_updates (lenv : LoadEnv) (l : List String) :
    ∀ (st : St) (sid uid : String) (d : SessionData),
      l.Nodup → sid ∈ l →
      st.redis.sessionUserHash sid = some uid →
      getSessionData st.redis sid = some d →
      getSessionData (fanLoop lenv st l).redis sid = some (loadSessionData lenv uid) := by
  induction l with
  | nil =>
    intro st sid uid d _ hmem
    exact absurd hmem (List.not_mem_nil sid)
  | cons a rest ih =>
    intro st sid uid d hnd hmem hhash hsess
    have hndr : rest.Nodup := (List.nodup_cons.mp hnd).2
    have hanr : a ∉ rest := (List.nodup_cons.mp hnd).1
    rcases List.mem_cons.mp hmem with rfl | hmemr
    · have h1 : getSessionData (fanStep lenv st sid).redis sid
          = some (loadSessionData lenv uid) := by
        have := getSessionData_setSession_self st sid (loadSessionData lenv uid)
        simpa [fanStep, hhash, updateSession, hsess] using this
      show getSessionData (fanLoop lenv (fanStep lenv st sid) rest).redis sid = _
      calc getSessionData (fanLoop lenv (fanStep lenv st sid) rest).redis sid
          = getSessionData (fanStep lenv st sid).redis sid := by
            unfold getSessionData
            rw [fanLoop_session_ne lenv rest _ sid hanr]
        _ = some (loadSessionData lenv uid) := h1
    · have hne : sid ≠ a := by
        rintro rfl
        exact hanr hmemr
      apply ih (fanStep lenv st a) sid uid d hndr hmemr
      · rw [fanStep_userHash_ne lenv st a sid hne]
        exact hhash
      · unfold getSessionData
        rw [fanStep_session_ne lenv st a sid hne]
        exact hsess

/-- C8 (amended): `updateSessionRole` reads the reverse set
`role:` + roleId + `:sessions` and, for each member, re-derives the
owning account via the `session:user` forward hash and invokes `update`
for that session; members are processed independently and a failure in
one member's reload does not abort the rest: every member session whose
owner is derivable and whose primary record exists is rewritten with
its freshly loaded data — a member whose reload failed receives the
degenerate empty-field data rather than the role's new permission set
(see the counterexample). The no-duplicate hypothesis on the member
list holds for every set produced by `sadd`. -/
theorem fanout_updates_each_live_member :
    ∀ (lenv : LoadEnv) (st : St) (roleId sid uid : String) (d : SessionData),
      (st.redis.roleSessions roleId).Nodup →
      sid ∈ st.redis.roleSessions roleId →
      st.redis.sessionUserHash sid = some uid →
      getSessionData st.redis sid = some d →
      getSessionData (updateSessionRole lenv st roleId).redis sid =
        some (loadSessionData lenv uid) := by
  intro lenv st roleId sid uid d hnd hmem hhash hsess
  exact fanLoop_updates lenv _ st sid uid d hnd hmem hhash hsess

/-- The stale pre-fan-out record of a member session owned by `u`. -/
def dOld (u : String) : SessionData := ⟨"w1", u, "r", ["old"], none, none, none⟩

/-- A role "r" with member sessions "s1", "s2", "s3" owned by "u1",
"u2", "u3": the reverse set, the `session:user` forward hash and the
primary records are populated. -/
def st8 : St :=
  ⟨{ emptyRedis with
      session := fun k =>
        if k = "s1" then some (dOld "u1", 9)
        else if k = "s2" then some (dOld "u2", 9)
        else if k = "s3" then some (dOld "u3", 9)
        else none
      sessionUserHash := fun k =>
        if k = "s1" then some "u1"
        else if k = "s2" then some "u2"
        else if k = "s3" then some "u3"
        else none
      roleSessions := fun k => if k = "r" then ["s1", "s2", "s3"] else [] },
   []⟩

/-- Durable-store contents for the fan-out scenario: the role's new
permission set is ["read"]; the reload for account "u2" fails (its user
settings lookup throws), which the loader absorbs into the degenerate
empty-field record. -/
def lenv8 : LoadEnv :=
  ⟨fun uid => if uid = "u2" then Except.error () else Except.ok (some ⟨"w1"⟩),
   fun _ _ => Except.ok (some ⟨"r"⟩),
   fun w => Except.ok (some ⟨w, none, none⟩),
   fun r => Except.ok (some ⟨r, ["read"], none⟩)⟩

/-- Witness for `fanout_updates_each_live_member`: member "s1" of role
"r" is rewritten with its freshly loaded data. -/
theorem fanout_updates_each_live_member_w :
    getSessionData (updateSessionRole lenv8 st8 "r").redis "s1" =
      some (loadSessionData lenv8 "u1") :=
  fanout_updates_each_live_member lenv8 st8 "r" "s1" "u1" (dOld "u1")
    (by decide) (by decide) (by decide) (by decide)

/-- C8 counterexample: the reload of member "s2" fails, and the loop
indeed continues — "s1" and "s3" end up with the role's new permission
set ["read"] — but "s2" itself ends up with the degenerate empty
permission list, not with the role's new permission set as the claim
states for every session of the role. -/
theorem fanout_failed_reload_degenerate :
    (getSessionData (updateSessionRole lenv8 st8 "r").redis "s1").map SessionData.permissions
      = some ["read"] ∧
    (getSessionData (updateSessionRole lenv8 st8 "r").redis "s3").map SessionData.permissions
      = some ["read"] ∧
    (getSessionData (updateSessionRole lenv8 st8 "r").redis "s2").map SessionData.permissions
      = some [] ∧
    some ([] : List Permission) ≠ some ["read"] :=
  ⟨by decide, by decide, by decide, by decide⟩

/-- C9: `createTokens` mints an access credential with 24-hour
(86400 s) lifetime and a refresh credential with 60-day (5184000 s)
lifetime, writes `refreshToken:` + sessionId with the refresh value and
a 60-day TTL, and sets the refreshToken cookie (path "/session",
maxAge 5184000) and the accessToken cookie (path "/", maxAge 86400),
both HTTP-only, same-site, signed, and secure exactly when the
configured public endpoint's scheme (the `URL.protocol` string of
`PUBLIC_API_URL`) is "https:". -/
theorem createTokens_spec :
    ∀ (env : Env) (st : St) (sid : String),
      (createTokens env st sid).redis =
        { st.redis with
            refreshToken :=
              updMap st.redis.refreshToken sid (some (env.jwtSign sid 5184000, 5184000)) } ∧
      (createTokens env st sid).res = st.res ++
        [ResEffect.jwtSign sid 86400,
         ResEffect.jwtSign sid 5184000,
         ResEffect.setCookie "refreshToken" (env.jwtSign sid 5184000)
           ⟨true, true, true, env.publicApiProtocol = "https:", env.cookieDomain,
            "/session", 5184000⟩,
         ResEffect.setCookie "accessToken" (env.jwtSign sid 86400)
           ⟨true, true, true, env.publicApiProtocol = "https:", env.cookieDomain,
            "/", 86400⟩] :=
  fun _ _ _ => ⟨rfl, rfl⟩

/-- C10: in every branch of `handleContentPieceUpdated` (content piece
outside a git-synced content group with or without an existing record,
missing content, moved record, updated record in place, newly created
record) the returned object's `directories` field is the input
`directories` list, unmodified. -/
theorem handler_preserves_directories :
    ∀ (env : GitEnv) (inp : HandlerInput),
      (handleContentPieceUpdated env inp).directories = inp.directories := by
  intro env inp
  unfold handleContentPieceUpdated
  dsimp only
  repeat' split
  all_goals rfl
